import Mathlib

/-!
Verification of the answer-resolution pipeline, cache signature, scheduling
parser and session state machine of `src/server.js` (a Node/Express quiz bot).

The JavaScript source is shallowly embedded: strings are Lean `String`s
operated on through their `List Char` data (JS string primitives such as
`toLowerCase`, `includes`, `split` and the default `Array.prototype.sort`
comparator are re-implemented structurally so that all definitions are
executable and kernel-reducible); JS code that can throw is embedded in
`Except`; the mutable server globals are gathered in an explicit
`ServerState` record and each Express handler becomes a state-passing
function returning (result, next state).

Scope notes on fidelity:
* JS `\w` is exactly `[A-Za-z0-9_]`, matched here by `Char.isAlphanum`
  and `_`.  JS `\s` and `toLowerCase` are Unicode-aware; the embedding
  models their ASCII behaviour (all concrete inputs used here are ASCII).
* The default JS sort comparator compares UTF-16 code-unit sequences;
  `strLtb` compares code points, which agrees on all strings without
  supplementary-plane characters.
-/

/-! ## Generic JS string primitives -/

/-- Lexicographic strict comparison of char lists by code point.
This is the order used by the default `Array.prototype.sort` comparator
(`options.sort()` in `generateKey`). -/
def strLtb : List Char → List Char → Bool
  | _, [] => false
  | [], _ :: _ => true
  | a :: as, b :: bs =>
    if a.toNat < b.toNat then true
    else if b.toNat < a.toNat then false
    else strLtb as bs

/-- Holds when `a ≤ b` in JS default-sort order: `b` is not strictly below `a`. -/
def jsStrLe (a b : String) : Prop := strLtb b.data a.data = false

instance : DecidableRel jsStrLe := fun a b =>
  inferInstanceAs (Decidable (strLtb b.data a.data = false))

/-- The in-place `options.sort()` of `generateKey` (src/server.js:58):
the resulting array is the unique `jsStrLe`-sorted permutation. -/
def jsSortStrings (l : List String) : List String := List.insertionSort jsStrLe l

theorem char_toNat_inj {a b : Char} (h : a.toNat = b.toNat) : a = b :=
  Char.eq_of_val_eq (UInt32.ext h)

theorem string_data_inj {a b : String} (h : a.data = b.data) : a = b := by
  cases a with
  | mk d1 => cases b with
    | mk d2 => exact congrArg String.mk h

theorem strLtb_asymm : ∀ a b : List Char, strLtb a b = true → strLtb b a = false := by
  intro a
  induction a with
  | nil =>
    intro b hab
    cases b with
    | nil => simpa [strLtb] using hab
    | cons y ys => rfl
  | cons x xs ih =>
    intro b hab
    cases b with
    | nil => simpa [strLtb] using hab
    | cons y ys =>
      simp only [strLtb] at hab ⊢
      split_ifs at hab ⊢ with h1 h2 h3 h4
      all_goals try rfl
      all_goals try omega
      all_goals try simpa using hab
      exact ih ys hab

theorem strLtb_le_trans : ∀ a b c : List Char,
    strLtb b a = false → strLtb c b = false → strLtb c a = false := by
  intro a
  induction a with
  | nil =>
    intro b c hba hcb
    cases c with
    | nil => rfl
    | cons z zs => rfl
  | cons x xs ih =>
    intro b c hba hcb
    cases b with
    | nil => simpa [strLtb] using hba
    | cons y ys =>
      cases c with
      | nil => simpa [strLtb] using hcb
      | cons z zs =>
        simp only [strLtb] at hba hcb ⊢
        split_ifs at hba hcb ⊢ with h1 h2 h3 h4 h5 h6
        all_goals try rfl
        all_goals try omega
        all_goals try simpa using hba
        all_goals try simpa using hcb
        exact ih ys zs hba hcb

theorem strLtb_antisymm : ∀ a b : List Char,
    strLtb a b = false → strLtb b a = false → a = b := by
  intro a
  induction a with
  | nil =>
    intro b hab hba
    cases b with
    | nil => rfl
    | cons y ys => simpa [strLtb] using hab
  | cons x xs ih =>
    intro b hab hba
    cases b with
    | nil => simpa [strLtb] using hba
    | cons y ys =>
      simp only [strLtb] at hab hba
      split_ifs at hab hba with h1 h2 h3 h4
      all_goals try omega
      all_goals try simpa using hab
      all_goals try simpa using hba
      have hx : x = y := char_toNat_inj (by omega)
      rw [hx, ih ys hab hba]

instance : IsTotal String jsStrLe :=
  ⟨fun a b => by
    unfold jsStrLe
    cases h : strLtb b.data a.data with
    | false => exact Or.inl rfl
    | true => exact Or.inr (strLtb_asymm _ _ h)⟩

instance : IsTrans String jsStrLe :=
  ⟨fun a b c hab hbc => strLtb_le_trans a.data b.data c.data hab hbc⟩

instance : IsAntisymm String jsStrLe :=
  ⟨fun a b hab hba => string_data_inj (strLtb_antisymm a.data b.data hba hab)⟩

theorem jsSortStrings_perm (l : List String) : (jsSortStrings l).Perm l :=
  List.perm_insertionSort jsStrLe l

theorem jsSortStrings_eq_of_perm {l1 l2 : List String} (h : l1.Perm l2) :
    jsSortStrings l1 = jsSortStrings l2 :=
  List.eq_of_perm_of_sorted
    ((List.perm_insertionSort _ _).trans (h.trans (List.perm_insertionSort _ _).symm))
    (List.sorted_insertionSort _ _) (List.sorted_insertionSort _ _)

/-! ## Character-level helpers for the JS string methods used by the resolver -/

/-- Prefix test `needle.isPrefixOf hay` on char lists (structural, kernel-reducible). -/
def isPrefL : List Char → List Char → Bool
  | [], _ => true
  | _ :: _, [] => false
  | a :: as, b :: bs => a == b && isPrefL as bs

/-- JS `hay.includes(needle)`: needle occurs as a contiguous substring
(the empty needle always matches, as in JS). -/
def isInfixL (needle : List Char) : List Char → Bool
  | [] => isPrefL needle []
  | b :: bs => isPrefL needle (b :: bs) || isInfixL needle bs

def jsIncludes (s sub : String) : Bool := isInfixL sub.data s.data

/-- JS `toLowerCase` (ASCII range; all inputs considered here are ASCII). -/
def jsToLower (s : String) : String := String.mk (s.data.map Char.toLower)

/-- Split off everything before / after the first occurrence of `sep`
in a char list; `none` when `sep` does not occur.  Implements the part
of JS `split(sep, 2)` that the source destructures. -/
def breakOnSep (sep : List Char) : List Char → Option (List Char × List Char)
  | [] => none
  | c :: rest =>
    if isPrefL sep (c :: rest) then some ([], (c :: rest).drop sep.length)
    else
      match breakOnSep sep rest with
      | some (pre, post) => some (c :: pre, post)
      | none => none

/-- Embeds `title.split(' - ', 2)` destructured into `[artistPart, titlePart]`,
guarded by `title.includes(' - ')` (src/server.js:455-456).  With limit 2,
JS keeps only the first two fields: the second field ends at the next
occurrence of the separator (or at the end of the string). -/
def splitDash (title : String) : Option (String × String) :=
  match breakOnSep [' ', '-', ' '] title.data with
  | none => none
  | some (pre, post) =>
    match breakOnSep [' ', '-', ' '] post with
    | some (second, _) => some (String.mk pre, String.mk second)
    | none => some (String.mk pre, String.mk post)

/-- JS `\w` character class: exactly `[A-Za-z0-9_]`. -/
def jsWordChar (c : Char) : Bool := c.isAlphanum || c == '_'

/-- Replace each maximal whitespace run by a single space
(the `replace(/\s+/g, ' ')` step); `inWS` records whether the previous
kept character position was inside a whitespace run. -/
def collapseWS : List Char → Bool → List Char
  | [], _ => []
  | c :: cs, inWS =>
    if c.isWhitespace then
      if inWS then collapseWS cs true else ' ' :: collapseWS cs true
    else c :: collapseWS cs false

/-- Trim leading and trailing whitespace. -/
def trimL (l : List Char) : List Char :=
  ((l.dropWhile Char.isWhitespace).reverse.dropWhile Char.isWhitespace).reverse

/-- Embeds `QuestionDatabase.normalizeText` (src/server.js:74-77): lower-case,
strip punctuation (`replace(/[^\w\s]/g, '')`), collapse whitespace,
`.trim()`.  This class method is the working normalization; it is never
called by the resolver path. -/
def dbNormalizeText (text : String) : String :=
  if text = "" then ""
  else
    String.mk
      (trimL (collapseWS
        ((jsToLower text).data.filter (fun c => jsWordChar c || c.isWhitespace)) false))

/-- The free function `normalizeText` (src/server.js:429-432), the one the
resolver actually calls.  Its body ends in `.strip()`, which is not a
JavaScript string method (a leftover from the Python port), so for every
non-empty input the call throws a `TypeError`; only the falsy empty string
returns early with `""`. -/
def normalizeText (text : String) : Except Unit String :=
  if text = "" then Except.ok "" else Except.error ()

/-! ## The answer resolver (src/server.js:429-508) -/

/-- Provenance of a resolved answer (the JS `source` field). -/
inductive Source where
  | database
  | strstr
  | artist_title
  | human_needed
  | human
deriving DecidableEq, Repr

/-- The record returned by `findBestAnswer`: `{ answer, source }`. -/
structure FindResult where
  answer : Option String
  source : Source
deriving DecidableEq, Repr

/-- Artist-indicating keyword vocabulary (src/server.js:450). -/
def artistWords : List String := ["ninde", "yaririmvye", "artist", "singer", "chanteur"]

/-- Title-indicating keyword vocabulary (src/server.js:452). -/
def titleWords : List String := ["zina", "ndirimbo", "title", "titre", "song"]

/-- One pass of the `for (const option of options)` loops inside
`artistTitleAnalysis`: return the first option whose `normalizeText` equals
`normalizeText part`.  JS evaluates `normalizeText(option)` before
`normalizeText(artistPart)`; either call throws for non-empty input. -/
def findNormEqOption (part : String) : List String → Except Unit (Option String)
  | [] => Except.ok none
  | o :: os => do
    let no ← normalizeText o
    let np ← normalizeText part
    if no = np then Except.ok (some o) else findNormEqOption part os

/-- Embeds `artistTitleAnalysis(title, options, questionText)`
(src/server.js:447-480).  The keyword tests are computed up front; the
body only runs when the title contains `" - "`; the artist comparison
loop runs before the title comparison loop. -/
def artistTitleAnalysis (title : String) (options : List String) (questionText : String) :
    Except Unit (Option String) :=
  let questionLower := jsToLower questionText
  let isArtistQuestion := artistWords.any fun w => jsIncludes questionLower w
  let isTitleQuestion := titleWords.any fun w => jsIncludes questionLower w
  match splitDash title with
  | none => Except.ok none
  | some (artistPart, titlePart) => do
    let rArtist ←
      if isArtistQuestion then findNormEqOption artistPart options else Except.ok none
    match rArtist with
    | some o => Except.ok (some o)
    | none =>
      if isTitleQuestion then findNormEqOption titlePart options else Except.ok none

/-- Embeds `strstrMatch(title, options)` (src/server.js:434-445): first option,
in iteration order, whose lower-cased text occurs in the lower-cased title. -/
def strstrMatch (title : String) (options : List String) : Option String :=
  options.find? fun option => jsIncludes (jsToLower title) (jsToLower option)

/-- Embeds `generateKey(title, questionText, options)` (src/server.js:57-60).
`options.sort()` sorts the caller's array **in place**; the second
component is that mutated array, threaded back to the caller. -/
def generateKey (title questionText : String) (options : List String) :
    String × List String :=
  let sorted := jsSortStrings options
  (title ++ "::" ++ questionText ++ "::" ++ String.intercalate "|" sorted, sorted)

/-- Embeds `this.db[key] || null` (src/server.js:64): an absent key, or a falsy
(empty-string) stored value, both read back as `null`. -/
def jsLookup (db : String → Option String) (key : String) : Option String :=
  match db key with
  | some a => if a = "" then none else some a
  | none => none

/-- Embeds `QuestionDatabase.findAnswer` (src/server.js:62-65).  The second
component is the options array as mutated by `generateKey`. -/
def findAnswer (db : String → Option String) (title questionText : String)
    (options : List String) : Option String × List String :=
  let r := generateKey title questionText options
  (jsLookup db r.1, r.2)

/-- The empty answer cache (`this.db = {}`). -/
def emptyDb : String → Option String := fun _ => none

/-- Steps 2-4 of `findBestAnswer` (src/server.js:493-507), operating on the
options array as it stands after the cache step (already sorted in place). -/
def findBestAnswerRest (questionText title : String) (opts : List String) :
    Except Unit FindResult × List String :=
  match strstrMatch title opts with
  | some o => (Except.ok ⟨some o, Source.strstr⟩, opts)
  | none =>
    match artistTitleAnalysis title opts questionText with
    | Except.ok (some o) => (Except.ok ⟨some o, Source.artist_title⟩, opts)
    | Except.ok none => (Except.ok ⟨none, Source.human_needed⟩, opts)
    | Except.error e => (Except.error e, opts)

/-- Embeds `findBestAnswer(questionText, title, options)` (src/server.js:482-508).
The first component is the returned `{answer, source}` record (or the
propagated exception); the second is the caller's options array after the
call — sorted, because step 1 runs `options.sort()` inside `generateKey`. -/
def findBestAnswer (db : String → Option String) (questionText title : String)
    (options : List String) : Except Unit FindResult × List String :=
  let fa := findAnswer db title questionText options
  match fa.1 with
  | some dbAnswer =>
    if dbAnswer ∈ fa.2 then (Except.ok ⟨some dbAnswer, Source.database⟩, fa.2)
    else findBestAnswerRest questionText title fa.2
  | none => findBestAnswerRest questionText title fa.2

/-! ## Schedule-time parsing (src/server.js:358-386)

Times are epoch milliseconds as integers.  A `Clock` fixes the wall clock
the way the source reads it: `nowMs` is `Date.now()` and `midnightMs` is
the start of the current local day, so that `setHours(h, m, 0, 0)` on a
fresh `Date` yields `midnightMs + h*3600000 + m*60000` and
`setDate(getDate() + 1)` adds `86400000` (DST shifts are not modelled). -/

structure Clock where
  nowMs : Int
  midnightMs : Int
deriving DecidableEq, Repr

/-- Decimal digits to a number (the strings fed in are digit-checked). -/
def digitsToNat (l : List Char) : Nat :=
  l.foldl (fun n c => n * 10 + (c.toNat - 48)) 0

/-- JS `Number(s)` restricted to the literals modelled here: after
trimming, the empty string coerces to `0` and an optional sign followed
by decimal digits to its value; everything else is `NaN` (`none`).
Fractional, exponent, hexadecimal and `Infinity` literals — which JS
would also accept — are outside this model; all of them lead to the same
accept/reject outcomes in `parseScheduleTime` for the inputs considered. -/
def jsNumberOpt (s : String) : Option Int :=
  match trimL s.data with
  | [] => some 0
  | '+' :: ds => if ds ≠ [] ∧ ds.all Char.isDigit then some (digitsToNat ds : Int) else none
  | '-' :: ds => if ds ≠ [] ∧ ds.all Char.isDigit then some (-(digitsToNat ds : Int)) else none
  | ds => if ds.all Char.isDigit then some (digitsToNat ds : Int) else none

/-- Longest digit prefix of `ds` as a (possibly negated) integer;
`none` when there is no leading digit. -/
def jsParseIntDigits (ds : List Char) (neg : Bool) : Option Int :=
  match ds.takeWhile Char.isDigit with
  | [] => none
  | pre => some (if neg then -(digitsToNat pre : Int) else (digitsToNat pre : Int))

/-- JS `parseInt(s)` (radix 10): skip leading whitespace, optional sign,
longest digit prefix; `NaN` (`none`) when no digit follows. -/
def jsParseInt (s : String) : Option Int :=
  match s.data.dropWhile Char.isWhitespace with
  | '+' :: ds => jsParseIntDigits ds false
  | '-' :: ds => jsParseIntDigits ds true
  | ds => jsParseIntDigits ds false

/-- The regex `^(\d{1,2}):(\d{2})$`: one or two digits, a colon, exactly
two digits.  Note there is no range check on hours or minutes. -/
def hhmmMatch (s : String) : Option (Nat × Nat) :=
  match breakOnSep [':'] s.data with
  | none => none
  | some (hpart, mpart) =>
    if (hpart.length = 1 ∨ hpart.length = 2) ∧ hpart.all Char.isDigit
        ∧ mpart.length = 2 ∧ mpart.all Char.isDigit then
      some (digitsToNat hpart, digitsToNat mpart)
    else none

/-- Embeds `parseScheduleTime(timeStr)` (src/server.js:358-386).  Numeric branch:
`parseInt` value returned when strictly in the future, otherwise the
"Timestamp dans le passe" error (also when `parseInt` yields `NaN`, since
`NaN > Date.now()` is false).  Otherwise the `HH:MM` regex; on a match the
target is today at `h:m` (out-of-range fields roll over arithmetically,
exactly as `setHours` normalizes them), pushed to tomorrow when not
strictly after `now`. -/
def parseScheduleTime (c : Clock) (timeStr : String) : Except String Int :=
  if (jsNumberOpt timeStr).isSome then
    match jsParseInt timeStr with
    | some ts => if ts > c.nowMs then Except.ok ts else Except.error "Timestamp dans le passe"
    | none => Except.error "Timestamp dans le passe"
  else
    match hhmmMatch timeStr with
    | none => Except.error "Format invalide. Utilisez HH:MM ou timestamp"
    | some (h, m) =>
      let target : Int := c.midnightMs + (h : Int) * 3600000 + (m : Int) * 60000
      if target ≤ c.nowMs then Except.ok (target + 86400000) else Except.ok target

/-! ## Session state and the Express handlers (src/server.js:14-28, 165-356)

The mutable globals (`isProcessing`, `waitingForToken`,
`waitingForHumanIntervention`, `authToken`, `scheduledTime`,
`currentStats`, `pendingQuestion`) form `ServerState`.  Each POST handler
is embedded as a pure function from the request body and the current
state to (result, next state); the result constructors correspond to the
handler's distinct JSON responses.  Background work spawned by a handler
(`startQuizBot`, the `setInterval` poller) is not part of the handler's
synchronous state transition and is modelled separately. -/

structure Stats where
  roundsPlayed : Nat
  totalQuestions : Nat
  correctAnswers : Nat
  startTime : Option Int
  errors : Nat
deriving DecidableEq, Repr

/-- The `pendingQuestion` record built by `waitForHumanAnswer`
(src/server.js:512-518) and mutated by POST /human-answer. -/
structure PendingQ where
  questionText : String
  title : String
  options : List String
  roundNumber : Nat
  questionNumber : Nat
  humanAnswer : Option String
  saveIfCorrect : Bool
deriving DecidableEq, Repr

structure ServerState where
  isProcessing : Bool
  waitingForToken : Bool
  waitingForHumanIntervention : Bool
  authToken : String
  scheduledTime : Option Int
  currentStats : Stats
  pendingQuestion : Option PendingQ
deriving DecidableEq, Repr

/-- Embeds `resetStats()` (src/server.js:340-348). -/
def resetStats (now : Int) : Stats :=
  { roundsPlayed := 0, totalQuestions := 0, correctAnswers := 0
    startTime := some now, errors := 0 }

/-- JS truthiness of an optional string body field (`undefined`, `null`
and `""` are falsy). -/
def jsTruthyS : Option String → Bool
  | none => false
  | some s => s ≠ ""

/-- JS truthiness of an optional numeric body field (`undefined`, `null`
and `0` are falsy). -/
def jsTruthyN : Option Nat → Bool
  | none => false
  | some n => n ≠ 0

/-- JS truthiness of the `scheduledTime` global (`null` and `0` falsy). -/
def jsTruthyTime : Option Int → Bool
  | none => false
  | some t => t ≠ 0

/-- Outcomes of POST /start-bot (src/server.js:205-248). -/
inductive StartResult where
  | busy
  | missingFields
  | started
deriving DecidableEq, Repr

/-- POST /start-bot (src/server.js:205-248), synchronous part.  The busy
check reads only `isProcessing`; on success the handler stores the token,
sets `isProcessing`, clears `scheduledTime`, resets the statistics and
spawns `startQuizBot` in the background. -/
def startBot (now : Int) (token : Option String) (rounds : Option Nat)
    (s : ServerState) : StartResult × ServerState :=
  if s.isProcessing then (StartResult.busy, s)
  else if ¬ jsTruthyS token ∨ ¬ jsTruthyN rounds then (StartResult.missingFields, s)
  else
    (StartResult.started,
      { s with
        authToken := token.getD ""
        isProcessing := true
        scheduledTime := none
        currentStats := resetStats now })

/-- Outcomes of POST /schedule-bot (src/server.js:250-290). -/
inductive ScheduleResult where
  | busy
  | missingFields
  | invalidTime
  | scheduled (target : Int)
deriving DecidableEq, Repr

/-- POST /schedule-bot (src/server.js:250-290), synchronous part.  Note
the order in the source: `authToken = token` runs *before* the `try`
block in which `parseScheduleTime` may throw, so a parse failure still
leaves the new token stored.  On success only `scheduledTime` is set
(statistics are reset later, when the timer fires). -/
def scheduleBot (c : Clock) (token : Option String) (rounds : Option Nat)
    (time : Option String) (s : ServerState) : ScheduleResult × ServerState :=
  if s.isProcessing then (ScheduleResult.busy, s)
  else if ¬ jsTruthyS token ∨ ¬ jsTruthyN rounds ∨ ¬ jsTruthyS time then
    (ScheduleResult.missingFields, s)
  else
    match parseScheduleTime c (time.getD "") with
    | Except.error _ => (ScheduleResult.invalidTime, { s with authToken := token.getD "" })
    | Except.ok target =>
      (ScheduleResult.scheduled target,
        { s with authToken := token.getD "", scheduledTime := some target })

/-- Outcomes of POST /human-answer (src/server.js:165-203). -/
inductive HumanAnswerResult where
  | noPending
  | missingAnswer
  | invalidAnswer
  | accepted
deriving DecidableEq, Repr

/-- POST /human-answer (src/server.js:165-203).  Checks, in order: a
question is pending; the answer field is truthy; the answer is one of the
pending question's options.  Only then does it record the answer on the
pending question and drop the `waitingForHumanIntervention` flag. -/
def humanAnswer (answer : Option String) (saveIfCorrect : Bool)
    (s : ServerState) : HumanAnswerResult × ServerState :=
  match s.pendingQuestion with
  | none => (HumanAnswerResult.noPending, s)
  | some p =>
    if ¬ jsTruthyS answer then (HumanAnswerResult.missingAnswer, s)
    else if answer.getD "" ∉ p.options then (HumanAnswerResult.invalidAnswer, s)
    else
      (HumanAnswerResult.accepted,
        { s with
          pendingQuestion := some { p with humanAnswer := answer
                                           saveIfCorrect := saveIfCorrect }
          waitingForHumanIntervention := false })

/-- Outcomes of POST /stop-bot (src/server.js:292-312). -/
inductive StopResult where
  | noProcess
  | stopped
deriving DecidableEq, Repr

/-- POST /stop-bot (src/server.js:292-312): rejected when neither running
nor (truthily) scheduled; otherwise clears the processing flag, the
schedule, the pending question and the waiting flag. -/
def stopBot (s : ServerState) : StopResult × ServerState :=
  if ¬ s.isProcessing ∧ ¬ jsTruthyTime s.scheduledTime then (StopResult.noProcess, s)
  else
    (StopResult.stopped,
      { s with
        isProcessing := false
        scheduledTime := none
        pendingQuestion := none
        waitingForHumanIntervention := false })

/-- The value `waitForHumanAnswer` computes, as `{answer, source, saveIfCorrect}`. -/
structure HumanResult where
  answer : Option String
  source : Source
  saveIfCorrect : Bool
deriving DecidableEq, Repr

/-- Value of `waitForHumanAnswer` after its polling loop
(`while (waitingForHumanIntervention && isProcessing) await sleep(1000)`,
src/server.js:525-540) has exited, evaluated on the state `s` observed at
wake-up: when the process was stopped it returns `null` and touches
nothing; otherwise it reads `pendingQuestion.humanAnswer` (a `TypeError`
if `pendingQuestion` were null) and clears the pending question. -/
def waitForHumanAnswerResult (s : ServerState) :
    Except Unit (Option HumanResult × ServerState) :=
  if ¬ s.isProcessing then Except.ok (none, s)
  else
    match s.pendingQuestion with
    | some p =>
      Except.ok (some ⟨p.humanAnswer, Source.human, p.saveIfCorrect⟩,
        { s with pendingQuestion := none })
    | none => Except.error ()

/-- What the question slot in `playRound` does with the value returned by
`waitForHumanAnswer` (src/server.js:567-577): a `null` result makes the
round return `false` (aborted) without reaching `submitAnswer`; otherwise
the answer is submitted. -/
inductive EscalationOutcome where
  | roundAborted
  | submitAnswerCalled (answer : Option String)
deriving DecidableEq, Repr

def afterEscalation : Option HumanResult → EscalationOutcome
  | none => EscalationOutcome.roundAborted
  | some hr => EscalationOutcome.submitAnswerCalled hr.answer

/-- Phases of `startQuizBot` relevant to the availability pre-check. -/
inductive RunPhase where
  | abortedInsufficientTurns
  | playingRounds
deriving DecidableEq, Repr

/-- The availability pre-check of `startQuizBot` (src/server.js:611-627):
`availableTurns = userInfo?.playTimes || 0`; when it is below the
requested rounds the function logs, clears `isProcessing` and returns —
`fetchQuestion` is never reached and `currentStats` is not touched. -/
def startQuizBotPrecheck (playTimes : Option Nat) (roundsToPlay : Nat)
    (s : ServerState) : RunPhase × ServerState :=
  let availableTurns := playTimes.getD 0
  if availableTurns < roundsToPlay then
    (RunPhase.abortedInsufficientTurns, { s with isProcessing := false })
  else (RunPhase.playingRounds, s)

/-! ## Shared auxiliary lemmas and concrete fixtures -/

deriving instance DecidableEq for Except

theorem findBestAnswerRest_snd (questionText title : String) (opts : List String) :
    (findBestAnswerRest questionText title opts).2 = opts := by
  unfold findBestAnswerRest
  split
  · rfl
  · split <;> rfl

/-- A wall clock reading 23:58 local time (86280000 ms past a midnight
placed at epoch 0). -/
def clk0 : Clock := ⟨86280000, 0⟩

def zeroStats : Stats := ⟨0, 0, 0, none, 0⟩

/-- An idle server with a stored credential "old". -/
def idleState : ServerState :=
  ⟨false, false, false, "old", none, zeroStats, none⟩

/-- A scheduled-but-not-running server (timer pending at t = 999999). -/
def schedState : ServerState :=
  ⟨false, false, false, "old", some 999999, zeroStats, none⟩

def pq0 : PendingQ := ⟨"q", "t", ["A", "B"], 1, 1, none, true⟩

/-- A running server awaiting a human answer for `pq0`. -/
def pendingState : ServerState :=
  ⟨true, false, true, "old", none, zeroStats, some pq0⟩

/-- A running server just after `resetStats` (start of a run). -/
def runningState : ServerState :=
  ⟨true, false, false, "tok", none, resetStats 5, none⟩

/-! ## Claim theorems -/

/-- C1: the claim says that with the cache and substring steps empty-handed,
a title containing " - " and artist-indicating question text make
`findBestAnswer` return the first option whose normalized text equals the
normalized artist part, with provenance artist-title.  On the input
(questionText "who is the artist", title "A.B - Song", options ["AB"]) the
cache step finds nothing and the substring step fails, the artist branch is
entered — and the resolver throws, because the free `normalizeText` ends in
the non-existent method `.strip()`; it never returns an option.  The intended
normalization (the class method `QuestionDatabase.normalizeText`, which uses
`.trim()`) maps "AB" and "A.B" to the same text "ab", so the claimed answer
"AB" is exactly what the artist branch was written to produce. -/
theorem c1_artistTitle_strip_typeError :
    (findBestAnswer emptyDb "who is the artist" "A.B - Song" ["AB"]).1 = Except.error () ∧
    jsLookup emptyDb (generateKey "A.B - Song" "who is the artist" ["AB"]).1 = none ∧
    strstrMatch "A.B - Song" ["AB"] = none ∧
    dbNormalizeText "AB" = "ab" ∧
    dbNormalizeText "A.B" = "ab" :=
  ⟨rfl, rfl, rfl, rfl, rfl⟩

/-- C2 (counterexample): on Question{title "Bob - Song A", text "who is the
artist", options ["Bob","Alice"]} with an empty cache, the resolver does NOT
return provenance artist-title: the substring step runs first and "bob"
occurs in "bob - song a", so the result is "Bob" with provenance strstr. -/
theorem c2_counterexample_provenance :
    (findBestAnswer emptyDb "who is the artist" "Bob - Song A" ["Bob", "Alice"]).1
      = Except.ok ⟨some "Bob", Source.strstr⟩ ∧
    (findBestAnswer emptyDb "who is the artist" "Bob - Song A" ["Bob", "Alice"]).1
      ≠ Except.ok ⟨some "Bob", Source.artist_title⟩ :=
  ⟨rfl, by decide⟩

/-- C2 (amended): on that input the resolver returns the answer "Bob", but
with provenance substring (`strstr`), because the substring step precedes
the artist/title heuristic in `findBestAnswer`; the caller's options array
is left sorted as ["Alice","Bob"]. -/
theorem c2_amended_strstr_provenance :
    findBestAnswer emptyDb "who is the artist" "Bob - Song A" ["Bob", "Alice"]
      = (Except.ok ⟨some "Bob", Source.strstr⟩, ["Alice", "Bob"]) :=
  rfl

/-- C3 (counterexample): resolution does not leave the options in their
original order: `findBestAnswer` on options ["Bob","Alice"] hands back the
array mutated to ["Alice","Bob"] (the in-place `options.sort()` inside
`generateKey`). -/
theorem c3_counterexample_options_mutated :
    (findBestAnswer emptyDb "which artist" "XYZ" ["Bob", "Alice"]).2 = ["Alice", "Bob"] ∧
    (["Alice", "Bob"] : List String) ≠ ["Bob", "Alice"] :=
  ⟨rfl, by decide⟩

/-- C3 (amended): resolution touches no state other than the options array
and cache reads, but it does mutate the options array: after
`findBestAnswer` the caller's options are the lexicographically sorted
permutation of the originals — same elements, possibly different order. -/
theorem c3_amended_options_sorted_perm (db : String → Option String)
    (questionText title : String) (options : List String) :
    (findBestAnswer db questionText title options).2 = jsSortStrings options ∧
    ((findBestAnswer db questionText title options).2).Perm options := by
  have h2 : (findBestAnswer db questionText title options).2 = jsSortStrings options := by
    simp only [findBestAnswer]
    split
    · split
      · rfl
      · rw [findBestAnswerRest_snd]
        rfl
    · rw [findBestAnswerRest_snd]
      rfl
  exact ⟨h2, h2 ▸ jsSortStrings_perm options⟩

/-- C4: the cache signature ignores option order: for any two questions with
the same title and text whose option lists are permutations of each other,
`generateKey` produces the same key (and, being a function, it is
deterministic by construction). -/
theorem c4_generateKey_order_independent (title questionText : String)
    {o1 o2 : List String} (h : o1.Perm o2) :
    (generateKey title questionText o1).1 = (generateKey title questionText o2).1 := by
  unfold generateKey
  rw [jsSortStrings_eq_of_perm h]

/-- C4 witness: concrete permuted option lists yield the same key. -/
theorem c4_generateKey_order_independent_witness :
    (["b", "a"] : List String).Perm ["a", "b"] ∧
    (generateKey "t" "q" ["b", "a"]).1 = (generateKey "t" "q" ["a", "b"]).1 :=
  ⟨List.Perm.swap "a" "b" [], c4_generateKey_order_independent "t" "q" (List.Perm.swap "a" "b" [])⟩

/-- A cache holding "Alice" under the signature of (title "t", text "q",
options {"Alice","Bob"}). -/
def cacheWithAlice : String → Option String :=
  fun k => if k = "t::q::Alice|Bob" then some "Alice" else none

/-- A cache answering "Zed" for every signature. -/
def cacheWithZed : String → Option String := fun _ => some "Zed"

/-- C5: when the cache lookup (`findAnswer`) yields an answer for the
question's signature, then (i) if that answer is among the current options
the resolver returns it with provenance database (cache), short-circuiting
the substring and artist/title steps, and (ii) if it is not among the
options it is ignored: the resolver computes exactly what it would with an
empty cache, i.e. it falls through to substring matching. -/
theorem c5_cache_lookup_behavior (db : String → Option String)
    (questionText title : String) (options : List String) (a : String)
    (h : (findAnswer db title questionText options).1 = some a) :
    (a ∈ options → findBestAnswer db questionText title options
        = (Except.ok ⟨some a, Source.database⟩, jsSortStrings options)) ∧
    (a ∉ options → findBestAnswer db questionText title options
        = findBestAnswer emptyDb questionText title options) := by
  constructor
  · intro hmem
    have hmem2 : a ∈ (findAnswer db title questionText options).2 :=
      (jsSortStrings_perm options).mem_iff.mpr hmem
    simp only [findBestAnswer, h]
    rw [if_pos hmem2]
    rfl
  · intro hmem
    have hmem2 : a ∉ (findAnswer db title questionText options).2 := fun hin =>
      hmem ((jsSortStrings_perm options).mem_iff.mp hin)
    simp only [findBestAnswer, h]
    rw [if_neg hmem2]
    rfl

/-- C5 witness: a matching cached answer ("Alice" ∈ options) is returned
with provenance database; a mismatched cached answer ("Zed" ∉ options)
leaves the resolver computing the empty-cache result. -/
theorem c5_cache_lookup_behavior_witness :
    findBestAnswer cacheWithAlice "q" "t" ["Bob", "Alice"]
      = (Except.ok ⟨some "Alice", Source.database⟩, jsSortStrings ["Bob", "Alice"]) ∧
    findBestAnswer cacheWithZed "q" "t" ["Bob", "Alice"]
      = findBestAnswer emptyDb "q" "t" ["Bob", "Alice"] :=
  ⟨(c5_cache_lookup_behavior cacheWithAlice "q" "t" ["Bob", "Alice"] "Alice" rfl).1
      (by decide),
   (c5_cache_lookup_behavior cacheWithZed "q" "t" ["Bob", "Alice"] "Zed" rfl).2
      (by decide)⟩

/-- C6 (counterexample): starting — and even re-scheduling — while the
session is merely scheduled (timer pending, `isProcessing` false) does NOT
fail: /start-bot accepts the request, clears the pending schedule and
mutates the state, and /schedule-bot likewise accepts and overwrites the
schedule.  The busy check reads only `isProcessing`. -/
theorem c6_counterexample_start_while_scheduled :
    (startBot 5 (some "tok") (some 3) schedState).1 = StartResult.started ∧
    (startBot 5 (some "tok") (some 3) schedState).2 ≠ schedState ∧
    (startBot 5 (some "tok") (some 3) schedState).2.scheduledTime = none ∧
    (scheduleBot clk0 (some "tok") (some 3) (some "90000000") schedState).1
      = ScheduleResult.scheduled 90000000 := by
  refine ⟨rfl, ?_, rfl, rfl⟩
  decide

/-- C6 (amended): starting or scheduling while the session is RUNNING
(`isProcessing` true) always fails with the busy-conflict error and leaves
the state untouched; while merely scheduled the requests are accepted
(start clears the schedule and begins a run, schedule reprograms it). -/
theorem c6_amended_busy_only_when_running (now : Int) (c : Clock)
    (token : Option String) (rounds : Option Nat) (time : Option String)
    (s : ServerState) (h : s.isProcessing = true) :
    startBot now token rounds s = (StartResult.busy, s) ∧
    scheduleBot c token rounds time s = (ScheduleResult.busy, s) := by
  unfold startBot scheduleBot
  rw [h]
  exact ⟨rfl, rfl⟩

/-- C6 witness: on a concrete running state both handlers report busy and
change nothing. -/
theorem c6_amended_busy_only_when_running_witness :
    startBot 0 (some "x") (some 1) runningState = (StartResult.busy, runningState) ∧
    scheduleBot clk0 (some "x") (some 1) (some "12:00") runningState
      = (ScheduleResult.busy, runningState) :=
  c6_amended_busy_only_when_running 0 clk0 (some "x") (some 1) (some "12:00")
    runningState rfl

/-- C7 (counterexample): a schedule request whose body passes the presence
checks but whose target time is invalid ("garbage") is a validation error,
yet it is NOT state-preserving: the source stores the new credential
(`authToken = token`) before the `try` block in which `parseScheduleTime`
throws, so the stored credential changes from "old" to "newTok". -/
theorem c7_counterexample_invalid_time_updates_token :
    (scheduleBot clk0 (some "newTok") (some 3) (some "garbage") idleState).1
      = ScheduleResult.invalidTime ∧
    (scheduleBot clk0 (some "newTok") (some 3) (some "garbage") idleState).2.authToken
      = "newTok" ∧
    idleState.authToken = "old" := by
  refine ⟨rfl, rfl, rfl⟩

/-- C7 (amended): every input-validation error is reported synchronously
and leaves the scheduled instant, pending question, phase flags and
statistics unchanged; the stored credential is also unchanged in every
case EXCEPT a schedule request with present fields but an invalid or past
target time, which updates only the stored credential before failing. -/
theorem c7_amended_validation_errors (now : Int) (c : Clock) (s : ServerState)
    (token : Option String) (rounds : Option Nat) (time answer : Option String)
    (sic : Bool) :
    (s.isProcessing = false → (jsTruthyS token = false ∨ jsTruthyN rounds = false) →
      startBot now token rounds s = (StartResult.missingFields, s)) ∧
    (s.isProcessing = false →
      (jsTruthyS token = false ∨ jsTruthyN rounds = false ∨ jsTruthyS time = false) →
      scheduleBot c token rounds time s = (ScheduleResult.missingFields, s)) ∧
    (s.isProcessing = false → jsTruthyS token = true → jsTruthyN rounds = true →
      jsTruthyS time = true →
      ∀ e, parseScheduleTime c (time.getD "") = Except.error e →
        scheduleBot c token rounds time s
          = (ScheduleResult.invalidTime, { s with authToken := token.getD "" })) ∧
    (s.pendingQuestion = none →
      humanAnswer answer sic s = (HumanAnswerResult.noPending, s)) ∧
    (∀ p, s.pendingQuestion = some p → jsTruthyS answer = false →
      humanAnswer answer sic s = (HumanAnswerResult.missingAnswer, s)) ∧
    (∀ p, s.pendingQuestion = some p → jsTruthyS answer = true →
      answer.getD "" ∉ p.options →
      humanAnswer answer sic s = (HumanAnswerResult.invalidAnswer, s)) := by
  refine ⟨?_, ?_, ?_, ?_, ?_, ?_⟩
  · intro h1 h2
    unfold startBot
    rw [h1]
    rw [if_neg (by simp)]
    rw [if_pos]
    rcases h2 with h | h <;> simp [h]
  · intro h1 h2
    unfold scheduleBot
    rw [h1]
    rw [if_neg (by simp)]
    rw [if_pos]
    rcases h2 with h | h | h <;> simp [h]
  · intro h1 h2 h3 h4 e he
    unfold scheduleBot
    rw [h1]
    rw [if_neg (by simp)]
    rw [if_neg (by simp [h2, h3, h4])]
    rw [he]
  · intro h1
    unfold humanAnswer
    rw [h1]
  · intro p h1 h2
    unfold humanAnswer
    rw [h1]
    simp [h2]
  · intro p h1 h2 h3
    unfold humanAnswer
    rw [h1]
    simp [h2, h3]

/-- C7 witness: each validation-error branch exercised on concrete states:
missing token on start, missing time on schedule, invalid time on schedule
(only the credential changes), answer with no pending question, missing
answer, and an answer outside the pending options. -/
theorem c7_amended_validation_errors_witness :
    startBot 0 none (some 1) idleState = (StartResult.missingFields, idleState) ∧
    scheduleBot clk0 (some "tok") (some 1) none idleState
      = (ScheduleResult.missingFields, idleState) ∧
    scheduleBot clk0 (some "new") (some 1) (some "garbage") idleState
      = (ScheduleResult.invalidTime, { idleState with authToken := "new" }) ∧
    humanAnswer (some "A") true idleState = (HumanAnswerResult.noPending, idleState) ∧
    humanAnswer none true pendingState = (HumanAnswerResult.missingAnswer, pendingState) ∧
    humanAnswer (some "C") true pendingState
      = (HumanAnswerResult.invalidAnswer, pendingState) :=
  ⟨(c7_amended_validation_errors 0 clk0 idleState none (some 1) (some "x") (some "A")
      true).1 rfl (Or.inl rfl),
   (c7_amended_validation_errors 0 clk0 idleState (some "tok") (some 1) none (some "A")
      true).2.1 rfl (Or.inr (Or.inr rfl)),
   (c7_amended_validation_errors 0 clk0 idleState (some "new") (some 1) (some "garbage")
      (some "A") true).2.2.1 rfl rfl rfl rfl
      "Format invalide. Utilisez HH:MM ou timestamp" rfl,
   (c7_amended_validation_errors 0 clk0 idleState (some "x") (some 1) (some "x")
      (some "A") true).2.2.2.1 rfl,
   (c7_amended_validation_errors 0 clk0 pendingState (some "x") (some 1) (some "x")
      none true).2.2.2.2.1 pq0 rfl rfl,
   (c7_amended_validation_errors 0 clk0 pendingState (some "x") (some 1) (some "x")
      (some "C") true).2.2.2.2.2 pq0 rfl rfl (by decide)⟩

/-- C8: stopping the session while it is awaiting a human answer discards
the pending question, returns the phase to idle, and the round loop then
aborts: the polling wait of `waitForHumanAnswer` wakes to a stopped state,
returns null without touching anything, and `playRound` returns false
(failure) without ever reaching `submitAnswer` — in particular no null
answer is submitted. -/
theorem c8_stop_while_awaiting_human (s : ServerState) (p : PendingQ)
    (hproc : s.isProcessing = true)
    (hwait : s.waitingForHumanIntervention = true)
    (hpend : s.pendingQuestion = some p) :
    (stopBot s).1 = StopResult.stopped ∧
    (stopBot s).2.pendingQuestion = none ∧
    (stopBot s).2.isProcessing = false ∧
    (stopBot s).2.waitingForHumanIntervention = false ∧
    waitForHumanAnswerResult (stopBot s).2 = Except.ok (none, (stopBot s).2) ∧
    afterEscalation none = EscalationOutcome.roundAborted := by
  unfold stopBot
  rw [if_neg (by simp [hproc])]
  refine ⟨rfl, rfl, rfl, rfl, ?_, rfl⟩
  unfold waitForHumanAnswerResult
  rw [if_pos (by simp)]

/-- C8 witness: the concrete awaiting-human state `pendingState`. -/
theorem c8_stop_while_awaiting_human_witness :
    (stopBot pendingState).1 = StopResult.stopped ∧
    (stopBot pendingState).2.pendingQuestion = none ∧
    (stopBot pendingState).2.isProcessing = false ∧
    (stopBot pendingState).2.waitingForHumanIntervention = false ∧
    waitForHumanAnswerResult (stopBot pendingState).2
      = Except.ok (none, (stopBot pendingState).2) ∧
    afterEscalation none = EscalationOutcome.roundAborted :=
  c8_stop_while_awaiting_human pendingState pq0 rfl rfl rfl

/-- C9 (counterexample): the claim says the credit shortfall is recorded as
an error condition observable in the final statistics.  It is not: on a
fresh running state with 0 available credits and 3 requested rounds the
pre-check aborts and clears `isProcessing`, but `currentStats` is exactly
what it was — the error counter stays 0.  The shortfall is only logged to
the console. -/
theorem c9_counterexample_no_error_recorded :
    (startQuizBotPrecheck (some 0) 3 runningState).1 = RunPhase.abortedInsufficientTurns ∧
    (startQuizBotPrecheck (some 0) 3 runningState).2.currentStats
      = runningState.currentStats ∧
    (startQuizBotPrecheck (some 0) 3 runningState).2.currentStats.errors = 0 ∧
    (startQuizBotPrecheck (some 0) 3 runningState).2.isProcessing = false := by
  refine ⟨rfl, rfl, rfl, rfl⟩

/-- C9 (amended): when the availability pre-check finds fewer play-credits
than requested rounds, the run aborts before any question is fetched and
the session transitions to idle, with no exception to the caller of
start/schedule (the abort is an ordinary return) — but the shortfall is
NOT recorded in the statistics: `currentStats` (its error counter
included) is left exactly as it was, observable only as zero rounds
played. -/
theorem c9_amended_precheck_abort (playTimes : Option Nat) (rounds : Nat)
    (s : ServerState) (h : playTimes.getD 0 < rounds) :
    startQuizBotPrecheck playTimes rounds s
      = (RunPhase.abortedInsufficientTurns, { s with isProcessing := false }) ∧
    ({ s with isProcessing := false } : ServerState).currentStats = s.currentStats := by
  unfold startQuizBotPrecheck
  rw [if_pos h]
  exact ⟨rfl, rfl⟩

/-- C9 witness: 0 credits, 3 requested rounds. -/
theorem c9_amended_precheck_abort_witness :
    startQuizBotPrecheck (some 0) 3 runningState
      = (RunPhase.abortedInsufficientTurns, { runningState with isProcessing := false }) ∧
    ({ runningState with isProcessing := false } : ServerState).currentStats
      = runningState.currentStats :=
  c9_amended_precheck_abort (some 0) 3 runningState (by decide)

/-- C10 (counterexample): "30:00" is neither a Unix-epoch value nor a
24-hour clock time, yet `parseScheduleTime` ACCEPTS it: the regex
`^(\d{1,2}):(\d{2})$` has no range check, and `setHours(30, 0, 0, 0)`
rolls the date over, producing a target 30 hours past midnight
(108000000 with midnight at 0) instead of an error. -/
theorem c10_counterexample_hour_30_accepted :
    parseScheduleTime clk0 "30:00" = Except.ok 108000000 := rfl

/-- C10 (amended): `parseScheduleTime` accepts (i) a numeric input whose
`parseInt` value is strictly greater than now, returned as-is, with a
non-future value rejected as a past-timestamp error, and (ii) any input
matching `\d{1,2}:\d{2}` — hours and minutes NOT range-checked —
resolved to midnight + h hours + m minutes (out-of-range fields roll over
arithmetically), kept today when strictly in the future and otherwise
pushed to the next day (so for in-range H:MM this is the next future
occurrence of that time-of-day); every other input is rejected with a
format error. -/
theorem c10_amended_parse_spec (c : Clock) (s : String) (v : Int) (h m : Nat) :
    ((jsNumberOpt s).isSome = true → jsParseInt s = some v → v > c.nowMs →
      parseScheduleTime c s = Except.ok v) ∧
    ((jsNumberOpt s).isSome = true → jsParseInt s = some v → v ≤ c.nowMs →
      parseScheduleTime c s = Except.error "Timestamp dans le passe") ∧
    ((jsNumberOpt s).isSome = false → hhmmMatch s = some (h, m) →
      c.midnightMs + (h : Int) * 3600000 + (m : Int) * 60000 > c.nowMs →
      parseScheduleTime c s
        = Except.ok (c.midnightMs + (h : Int) * 3600000 + (m : Int) * 60000)) ∧
    ((jsNumberOpt s).isSome = false → hhmmMatch s = some (h, m) →
      c.midnightMs + (h : Int) * 3600000 + (m : Int) * 60000 ≤ c.nowMs →
      parseScheduleTime c s
        = Except.ok (c.midnightMs + (h : Int) * 3600000 + (m : Int) * 60000 + 86400000)) ∧
    ((jsNumberOpt s).isSome = false → hhmmMatch s = none →
      parseScheduleTime c s = Except.error "Format invalide. Utilisez HH:MM ou timestamp") := by
  refine ⟨?_, ?_, ?_, ?_, ?_⟩
  · intro h1 h2 h3
    unfold parseScheduleTime
    rw [if_pos (by simp [h1]), h2]
    simp only []
    rw [if_pos h3]
  · intro h1 h2 h3
    unfold parseScheduleTime
    rw [if_pos (by simp [h1]), h2]
    simp only []
    rw [if_neg (by omega)]
  · intro h1 h2 h3
    unfold parseScheduleTime
    rw [if_neg (by simp [h1]), h2]
    simp only []
    rw [if_neg (by omega)]
  · intro h1 h2 h3
    unfold parseScheduleTime
    rw [if_neg (by simp [h1]), h2]
    simp only []
    rw [if_pos (by omega)]
  · intro h1 h2
    unfold parseScheduleTime
    rw [if_neg (by simp [h1]), h2]

/-- C10 witness: a future epoch value is returned as-is, a past one is
rejected; "23:59" at 23:58 resolves later today (86340000), "00:01" at
23:58 resolves tomorrow (86460000); "garbage" is rejected. -/
theorem c10_amended_parse_spec_witness :
    parseScheduleTime clk0 "90000000" = Except.ok 90000000 ∧
    parseScheduleTime clk0 "100" = Except.error "Timestamp dans le passe" ∧
    parseScheduleTime clk0 "23:59" = Except.ok 86340000 ∧
    parseScheduleTime clk0 "00:01" = Except.ok 86460000 ∧
    parseScheduleTime clk0 "garbage"
      = Except.error "Format invalide. Utilisez HH:MM ou timestamp" :=
  ⟨(c10_amended_parse_spec clk0 "90000000" 90000000 0 0).1 rfl rfl (by decide),
   (c10_amended_parse_spec clk0 "100" 100 0 0).2.1 rfl rfl (by decide),
   (by
      have h := (c10_amended_parse_spec clk0 "23:59" 0 23 59).2.2.1 rfl rfl (by decide)
      simpa using h),
   (by
      have h := (c10_amended_parse_spec clk0 "00:01" 0 0 1).2.2.2.1 rfl rfl (by decide)
      simpa using h),
   (c10_amended_parse_spec clk0 "garbage" 0 0 0).2.2.2.2 rfl rfl⟩
